import Mathlib

/-!
Shallow embedding of the yagve engine core
(src/util/performance_stats.rs, src/settings.rs, src/graphics.rs, src/engine.rs).

Instants and Durations are modelled as natural numbers of time ticks.
`Instant::now()` results are threaded in as explicit parameters, in the
order the source calls them.
-/

/-! ## PerformanceStats — src/util/performance_stats.rs (FrameClock) -/

def FPS_SMA_RESOLUTION : Nat := 100

structure PerformanceStats where
  last_frame : Option Nat
  frame_durations : List Nat
  frames : Nat
  frame_rate_accum : Nat
deriving DecidableEq

def PerformanceStats.default : PerformanceStats :=
  { last_frame := none
    frame_durations := List.replicate 100 0
    frames := 1
    frame_rate_accum := 0 }

/-- Model of `frame_durations.rotate_right(1)`: the last element moves to the front. -/
def rotate_right1 (l : List Nat) : List Nat := l.getLastD 0 :: l.dropLast

/-- Model of `PerformanceStats::add_frame`. The `-` on the accumulator is Nat
truncation; the source's `Duration` subtraction cannot underflow because the
accumulator always equals the ring sum (proved below). -/
def PerformanceStats.add_frame (s : PerformanceStats) (time : Nat) : PerformanceStats :=
  match s.last_frame with
  | some last_frame =>
    let duration := time - last_frame
    let fd := rotate_right1 s.frame_durations
    let accum := s.frame_rate_accum - fd.headD 0 + duration
    { last_frame := some time
      frame_durations := fd.set 0 duration
      frames := min (s.frames + 1) FPS_SMA_RESOLUTION
      frame_rate_accum := accum }
  | none => { s with last_frame := some time }

/-- Model of `PerformanceStats::get_frame_time` (`Duration / u32`, truncating). -/
def PerformanceStats.get_frame_time (s : PerformanceStats) : Nat :=
  s.frame_rate_accum / s.frames

/-- Feed a sequence of instants to `add_frame`, one by one. -/
def feedFrames (s : PerformanceStats) (ts : List Nat) : PerformanceStats :=
  ts.foldl PerformanceStats.add_frame s

/-! Closed-form description of the state after feeding instants.
`rds` is the list of recorded inter-frame deltas, newest first. -/

/-- The ring contents determined by the newest-first delta list. -/
def ringOf (rds : List Nat) : List Nat :=
  (rds ++ List.replicate 100 0).take 100

/-- The stats state reached after one baseline instant and the deltas `rds`
(newest first): `frames` counts instants (it starts at 1), the accumulator
holds the sum of the newest 100 deltas. -/
def goodStats (last : Nat) (rds : List Nat) : PerformanceStats :=
  { last_frame := some last
    frame_durations := ringOf rds
    frames := min (rds.length + 1) 100
    frame_rate_accum := (rds.take 100).sum }

/-- Successive differences of an instant sequence, oldest first. -/
def deltasFrom : Nat → List Nat → List Nat
  | _, [] => []
  | prev, t :: ts => (t - prev) :: deltasFrom t ts

/-! ## GraphicsSettings — src/settings.rs

`with_framerate` converts an `f64` rate to a duration; floating point is out
of scope here, so only the resulting `frametime_or_vsync` field is modelled. -/

structure GraphicsSettings where
  frametime_or_vsync : Option Nat
  render_without_focus : Bool
deriving DecidableEq

def GraphicsSettings.default : GraphicsSettings :=
  { frametime_or_vsync := none
    render_without_focus := false }

def GraphicsSettings.with_vsync (s : GraphicsSettings) : GraphicsSettings :=
  { s with frametime_or_vsync := none }

def GraphicsSettings.with_frametime (s : GraphicsSettings) (frametime : Nat) :
    GraphicsSettings :=
  { s with frametime_or_vsync := some frametime }

def GraphicsSettings.with_render_without_focus (s : GraphicsSettings)
    (render_without_focus : Bool) : GraphicsSettings :=
  { s with render_without_focus := render_without_focus }

/-! ## GraphicsContext — src/graphics.rs (RenderBackend)

The wgpu adapter/device/queue are external capabilities; what the claims need
is the surface configuration the backend applies and the number of loaded
pipelines (`draw` presents once per pipeline). -/

inductive PresentMode
  | AutoVsync
  | AutoNoVsync
deriving DecidableEq

structure SurfaceConfig where
  width : Nat
  height : Nat
  present_mode : PresentMode
deriving DecidableEq

/-- Model of `GraphicsContext::configure_surface`: clamps the window's reported inner
size to at least 1 on each axis and derives the present mode from the pacing
setting. -/
def configure_surface (window_size : Nat × Nat) (settings : GraphicsSettings) :
    SurfaceConfig :=
  { width := max window_size.1 1
    height := max window_size.2 1
    present_mode :=
      if settings.frametime_or_vsync.isSome then PresentMode.AutoNoVsync
      else PresentMode.AutoVsync }

def SHADERS : List String := ["shader"]

structure GraphicsContext where
  surface_config : SurfaceConfig
  /-- number of loaded render pipelines (one per entry of `SHADERS`) -/
  shaders : Nat
deriving DecidableEq

/-- Model of `GraphicsContext::new`: configures the surface from the window's current
size, then loads one pipeline per entry of `SHADERS`. -/
def GraphicsContext.new (settings : GraphicsSettings) (window_size : Nat × Nat) :
    GraphicsContext :=
  { surface_config := configure_surface window_size settings
    shaders := SHADERS.length }

/-- Model of `GraphicsContext::reconfigure_surface`: re-derives and re-applies the
configuration; device, queue and pipelines untouched. -/
def GraphicsContext.reconfigure_surface (gc : GraphicsContext)
    (window_size : Nat × Nat) (settings : GraphicsSettings) : GraphicsContext :=
  { gc with surface_config := configure_surface window_size settings }

/-- Model of `GraphicsContext::draw`: one submit + present per loaded pipeline; returns
the number of presents performed. -/
def GraphicsContext.draw (gc : GraphicsContext) : GraphicsContext × Nat :=
  (gc, gc.shaders)

/-! ## Engine — src/engine.rs (EngineLoop + FramePacer) -/

structure Engine where
  /-- Field `window`: `some size` means the window exists with that inner size. -/
  window : Option (Nat × Nat)
  has_focus : Bool
  graphics_context : Option GraphicsContext
  graphics_settings : GraphicsSettings
  next_frame_time : Nat
  performance_stats : PerformanceStats
deriving DecidableEq

/-- Model of `Engine::new` (`now` is the `Instant::now()` taken at construction). -/
def Engine.new (now : Nat) : Engine :=
  { window := none
    has_focus := false
    graphics_context := none
    graphics_settings := GraphicsSettings.default
    next_frame_time := now
    performance_stats := PerformanceStats.default }

/-- The redraw gate of `Engine::window_event`:
`frametime_or_vsync.is_none() || next_frame_time <= Instant::now()`. -/
def may_draw (settings : GraphicsSettings) (next_frame_time now : Nat) : Bool :=
  settings.frametime_or_vsync.isNone || decide (next_frame_time ≤ now)

/-- The pacer advance performed after a draw:
`if let Some(frametime) = ... { next_frame_time = Instant::now() + frametime }`. -/
def on_drawn (settings : GraphicsSettings) (next_frame_time now : Nat) : Nat :=
  match settings.frametime_or_vsync with
  | some frametime => now + frametime
  | none => next_frame_time

/-- Model of `Engine::draw`: unwraps the graphics context (`none` models the panic),
draws, and records the frame; returns the presents performed. -/
def Engine.draw (e : Engine) (now : Nat) : Option (Engine × Nat) :=
  match e.graphics_context with
  | none => none
  | some gc =>
    let r := gc.draw
    some ({ e with
              graphics_context := some r.1
              performance_stats := e.performance_stats.add_frame now }, r.2)

/-- Window-system events. `RedrawRequested` carries the results of the three
successive `Instant::now()` calls on that path (pacer check, frame record,
pacer advance). `Resized` carries the window's new inner size. `Other` stands
for the remaining arms (keyboard input, modifiers, the `_` catch-all), which
leave the engine state unchanged. -/
inductive WindowEvent
  | Focused (is_focused : Bool)
  | CloseRequested
  | RedrawRequested (now_check now_record now_advance : Nat)
  | Resized (size : Nat × Nat)
  | Other
deriving DecidableEq

/-- Observable outcome of one `Engine::window_event` call. -/
structure StepOutput where
  engine : Engine
  /-- backend present calls performed while handling the event -/
  presents : Nat
  /-- count of `request_redraw` calls performed while handling the event -/
  redraw_requests : Nat
  /-- whether `event_loop.exit()` was called -/
  exited : Bool
deriving DecidableEq

/-- Model of `Engine::window_event`. Result `none` models a panic (an `unwrap` of an absent
window or graphics context). In the `RedrawRequested` arm the early
`break 'block` on the visibility gate leaves the labelled block, skipping the
trailing `request_redraw` as well. -/
def Engine.window_event (e : Engine) (event : WindowEvent) : Option StepOutput :=
  match event with
  | .Focused is_focused =>
    let e := { e with has_focus := is_focused }
    match e.window with
    | none => none
    | some _ => some ⟨e, 0, 1, false⟩
  | .CloseRequested => some ⟨e, 0, 0, true⟩
  | .RedrawRequested now_check now_record now_advance =>
    if !(e.has_focus || e.graphics_settings.render_without_focus) then
      some ⟨e, 0, 0, false⟩
    else
      let step : Option (Engine × Nat) :=
        if may_draw e.graphics_settings e.next_frame_time now_check then
          match e.draw now_record with
          | none => none
          | some (e, presents) =>
            some ({ e with next_frame_time :=
                      on_drawn e.graphics_settings e.next_frame_time now_advance },
                  presents)
        else
          some (e, 0)
      match step with
      | none => none
      | some (e, presents) =>
        match e.window with
        | none => none
        | some _ => some ⟨e, presents, 1, false⟩
  | .Resized size =>
    let e := { e with window := e.window.map fun _ => size }
    match e.graphics_context with
    | none => some ⟨e, 0, 0, false⟩
    | some gc =>
      match e.window with
      | none => none
      | some w =>
        let gc2 := gc.reconfigure_surface w e.graphics_settings
        some ⟨{ e with graphics_context := some gc2 }, 0, 0, false⟩
  | .Other => some ⟨e, 0, 0, false⟩

/-- Model of `Engine::resumed`: creates the window (its initial inner size is the
external input `created_size`) and the graphics context only when no window
exists yet. -/
def Engine.resumed (e : Engine) (created_size : Nat × Nat) : Engine :=
  match e.window with
  | some _ => e
  | none =>
    { e with
        window := some created_size
        graphics_context := some (GraphicsContext.new e.graphics_settings created_size) }

/-- Process a list of events in order; `none` as soon as one handler panics. -/
def Engine.run (e : Engine) : List WindowEvent → Option Engine
  | [] => some e
  | ev :: evs =>
    match e.window_event ev with
    | none => none
    | some out => out.engine.run evs

/-- Clock sanity on one event: on a redraw the pacer-advance `Instant::now()`
is not earlier than the pacer-check one. -/
def WindowEvent.clockMonotone : WindowEvent → Prop
  | .RedrawRequested now_check _ now_advance => now_check ≤ now_advance
  | _ => True

/-- A ready engine with one loaded pipeline and no focus, used as a concrete
evaluation point. -/
def engineUnfocused : Engine :=
  { window := some (800, 600)
    has_focus := false
    graphics_context := some (GraphicsContext.new GraphicsSettings.default (800, 600))
    graphics_settings := GraphicsSettings.default
    next_frame_time := 0
    performance_stats := PerformanceStats.default }

/-- A ready engine with focus, used as a concrete evaluation point. -/
def engineFocused : Engine := { engineUnfocused with has_focus := true }

/-- The output of a redraw on `engineFocused` at instant 0. -/
def redrawOut : StepOutput :=
  ⟨{ engineFocused with
      performance_stats := PerformanceStats.default.add_frame 0 },
   1, 1, false⟩

/-- A fresh engine (no window, no backend yet) configured to render without
focus. -/
def engineFresh : Engine :=
  { Engine.new 0 with
      graphics_settings := GraphicsSettings.default.with_render_without_focus true }

lemma take_succ_eq (L : List Nat) (n : Nat) (h : n < L.length) :
    L.take (n + 1) = L.take n ++ [L.getD n 0] := by
  have h1 := List.take_concat_get L n h
  rw [List.concat_eq_append] at h1
  rw [List.getD_eq_getElem L 0 h]
  exact h1.symm

lemma dropLast_take_succ (L : List Nat) (n : Nat) (h : n < L.length) :
    (L.take (n + 1)).dropLast = L.take n := by
  rw [take_succ_eq L n h, List.dropLast_concat]

lemma getLastD_take_succ (L : List Nat) (n : Nat) (h : n < L.length) :
    (L.take (n + 1)).getLastD 0 = L.getD n 0 := by
  rw [take_succ_eq L n h, List.getLastD_concat]

lemma sum_take_succ (L : List Nat) (n : Nat) (h : n < L.length) :
    (L.take (n + 1)).sum = (L.take n).sum + L.getD n 0 := by
  rw [take_succ_eq L n h, List.sum_append]
  simp

lemma take_pad_sum (l : List Nat) (n m : Nat) :
    ((l ++ List.replicate m 0).take n).sum = (l.take n).sum := by
  rw [List.take_append_eq_append_take, List.sum_append, List.take_replicate]
  simp

/-- One `add_frame` step on a characterized state records the new delta. -/
lemma add_frame_goodStats (last t : Nat) (rds : List Nat) :
    (goodStats last rds).add_frame t = goodStats t ((t - last) :: rds) := by
  have h99 : 99 < (rds ++ List.replicate 100 0).length := by
    simp
  have hdrop : (ringOf rds).dropLast = (rds ++ List.replicate 100 0).take 99 := by
    have := dropLast_take_succ (rds ++ List.replicate 100 0) 99 h99
    simpa [ringOf] using this
  have hlast : (ringOf rds).getLastD 0 = (rds ++ List.replicate 100 0).getD 99 0 := by
    have := getLastD_take_succ (rds ++ List.replicate 100 0) 99 h99
    simpa [ringOf] using this
  simp only [goodStats, PerformanceStats.add_frame, rotate_right1, FPS_SMA_RESOLUTION,
    List.headD_cons, List.set_cons_zero, PerformanceStats.mk.injEq, true_and]
  refine ⟨?_, ?_, ?_⟩
  · rw [hdrop]
    simp only [ringOf, List.cons_append, List.take_succ_cons]
  · simp only [List.length_cons]
    omega
  · rw [hlast]
    have hsum100 : (rds.take 100).sum = ((rds ++ List.replicate 100 0).take 100).sum :=
      (take_pad_sum rds 100 100).symm
    have hsum99 : (rds.take 99).sum = ((rds ++ List.replicate 100 0).take 99).sum :=
      (take_pad_sum rds 99 100).symm
    have hstep : ((rds ++ List.replicate 100 0).take 100).sum =
        ((rds ++ List.replicate 100 0).take 99).sum +
          (rds ++ List.replicate 100 0).getD 99 0 := by
      have h := sum_take_succ (rds ++ List.replicate 100 0) 99 h99
      rw [show (99 : Nat) + 1 = 100 by norm_num] at h
      exact h
    rw [List.take_succ_cons, List.sum_cons, hsum100, hsum99]
    omega

/-- Folding further instants over a characterized state. -/
lemma feedFrames_goodStats (ts : List Nat) : ∀ (last : Nat) (rds : List Nat),
    feedFrames (goodStats last rds) ts =
      goodStats (ts.getLastD last) ((deltasFrom last ts).reverse ++ rds) := by
  induction ts with
  | nil => intro last rds; simp [feedFrames, deltasFrom]
  | cons t ts ih =>
    intro last rds
    show feedFrames ((goodStats last rds).add_frame t) ts = _
    rw [add_frame_goodStats, ih t ((t - last) :: rds)]
    congr 1
    · cases ts <;> rfl
    · simp [deltasFrom]

/-- Closed form for the state after feeding a nonempty instant sequence to a
fresh `PerformanceStats`. -/
theorem feedFrames_closed_form (t0 : Nat) (ts : List Nat) :
    feedFrames PerformanceStats.default (t0 :: ts) =
      goodStats (ts.getLastD t0) (deltasFrom t0 ts).reverse := by
  have h0 : PerformanceStats.default.add_frame t0 = goodStats t0 [] := by
    simp [PerformanceStats.add_frame, PerformanceStats.default, goodStats, ringOf,
      List.take_replicate]
  show feedFrames (PerformanceStats.default.add_frame t0) ts = _
  rw [h0, feedFrames_goodStats]
  simp

lemma ringOf_sum (rds : List Nat) : (ringOf rds).sum = (rds.take 100).sum :=
  take_pad_sum rds 100 100

lemma deltasFrom_length (prev : Nat) (ts : List Nat) :
    (deltasFrom prev ts).length = ts.length := by
  induction ts generalizing prev with
  | nil => rfl
  | cons t ts ih => simp [deltasFrom, ih]

/-! ## Claim theorems -/

/-- C1 (amended): feeding `N = ts.length + 1` strictly increasing instants to
`add_frame`, the stored count `frames` equals `min(N, 100)` — the field starts
at 1 and counts recorded instants, not deltas — and `get_frame_time` equals
the sum of the last `min(N-1, 100)` deltas divided (truncating) by
`min(N, 100)`. -/
theorem frameclock_count_average (t0 : Nat) (ts : List Nat)
    (_hinc : List.Chain (· < ·) t0 ts) :
    (feedFrames PerformanceStats.default (t0 :: ts)).frames =
      min (ts.length + 1) 100 ∧
    (feedFrames PerformanceStats.default (t0 :: ts)).get_frame_time =
      ((deltasFrom t0 ts).reverse.take 100).sum / min (ts.length + 1) 100 := by
  rw [feedFrames_closed_form]
  refine ⟨?_, ?_⟩
  · simp [goodStats, deltasFrom_length]
  · simp [goodStats, PerformanceStats.get_frame_time, deltasFrom_length]

/-- Witness for C1 at the instants `[0, 2]`. -/
theorem frameclock_count_average_witness :
    List.Chain (· < ·) 0 [2] ∧
    (feedFrames PerformanceStats.default [0, 2]).frames = min 2 100 ∧
    (feedFrames PerformanceStats.default [0, 2]).get_frame_time =
      ((deltasFrom 0 [2]).reverse.take 100).sum / min 2 100 :=
  ⟨List.Chain.cons (by norm_num) List.Chain.nil,
   frameclock_count_average 0 [2] (List.Chain.cons (by norm_num) List.Chain.nil)⟩

/-- C1 counterexample: for the two strictly increasing instants `[0, 2]`
(N = 2, one delta of 2), the claim as stated demands a sample count of
`min(N-1, 100) = 1` and an average of 2, but the code stores `frames = 2`
and reports `2 / 2 = 1`. -/
theorem frameclock_count_claim_refuted :
    ¬ ((feedFrames PerformanceStats.default [0, 2]).frames = min 1 100 ∧
       (feedFrames PerformanceStats.default [0, 2]).get_frame_time =
         ((deltasFrom 0 [2]).reverse.take 100).sum / min 1 100) := by decide

set_option maxRecDepth 40000 in
/-- C5: the accumulator always equals the sum of the 100-slot ring's contents
and the count never exceeds 100; feeding the 101 instants `0..100`, spaced one
time unit apart, yields an average of exactly one time unit with the count
saturated at 100 (the oldest sample was evicted). -/
theorem frameclock_ring_eviction :
    (∀ ts : List Nat,
      (feedFrames PerformanceStats.default ts).frame_rate_accum =
        (feedFrames PerformanceStats.default ts).frame_durations.sum ∧
      (feedFrames PerformanceStats.default ts).frames ≤ 100) ∧
    (feedFrames PerformanceStats.default (List.range 101)).get_frame_time = 1 ∧
    (feedFrames PerformanceStats.default (List.range 101)).frames = 100 := by
  refine ⟨fun ts => ?_, by decide, by decide⟩
  cases ts with
  | nil => exact ⟨by decide, by decide⟩
  | cons t0 ts =>
    rw [feedFrames_closed_form]
    exact ⟨(ringOf_sum _).symm, min_le_right _ _⟩

/-- C3: with `FixedInterval d` the gate, after the pacer advanced at draw time
`t0`, rejects every instant in `[t0, t0 + d)` and accepts every instant from
`t0 + d` on; with `Vsync` (`frametime_or_vsync = none`) the gate accepts every
instant. -/
theorem pacer_gate_correct (settings : GraphicsSettings) (next t0 t : Nat) :
    (∀ d, settings.frametime_or_vsync = some d →
      (t0 ≤ t → t < t0 + d →
        may_draw settings (on_drawn settings next t0) t = false) ∧
      (t0 + d ≤ t →
        may_draw settings (on_drawn settings next t0) t = true)) ∧
    (settings.frametime_or_vsync = none → may_draw settings next t = true) := by
  refine ⟨fun d hd => ⟨fun hle hlt => ?_, fun hge => ?_⟩, fun h => ?_⟩
  · simp only [may_draw, on_drawn, hd, Option.isNone_some, Bool.false_or,
      decide_eq_false_iff_not]
    omega
  · simp only [may_draw, on_drawn, hd, Option.isNone_some, Bool.false_or,
      decide_eq_true_eq]
    omega
  · simp [may_draw, h]

/-- Witness for C3 with interval 5, drawn at time 10, probed at 12 and 15,
plus the vsync mode probed at 3. -/
theorem pacer_gate_correct_witness :
    may_draw (GraphicsSettings.default.with_frametime 5)
      (on_drawn (GraphicsSettings.default.with_frametime 5) 0 10) 12 = false ∧
    may_draw (GraphicsSettings.default.with_frametime 5)
      (on_drawn (GraphicsSettings.default.with_frametime 5) 0 10) 15 = true ∧
    may_draw GraphicsSettings.default 999 3 = true :=
  ⟨((pacer_gate_correct (GraphicsSettings.default.with_frametime 5) 0 10 12).1
      5 rfl).1 (by decide) (by decide),
   ((pacer_gate_correct (GraphicsSettings.default.with_frametime 5) 0 10 15).1
      5 rfl).2 (by decide),
   (pacer_gate_correct GraphicsSettings.default 999 0 3).2 rfl⟩

/-- C7: every surface configuration applied by the backend — at creation and
at every reconfigure — clamps each axis of the window's reported pixel size to
a minimum of 1, so its dimensions are at least 1 × 1. -/
theorem surface_config_min_dims (window_size : Nat × Nat)
    (settings : GraphicsSettings) (gc : GraphicsContext) :
    ((GraphicsContext.new settings window_size).surface_config.width =
        max window_size.1 1 ∧
     (GraphicsContext.new settings window_size).surface_config.height =
        max window_size.2 1 ∧
     1 ≤ (GraphicsContext.new settings window_size).surface_config.width ∧
     1 ≤ (GraphicsContext.new settings window_size).surface_config.height) ∧
    ((gc.reconfigure_surface window_size settings).surface_config.width =
        max window_size.1 1 ∧
     (gc.reconfigure_surface window_size settings).surface_config.height =
        max window_size.2 1 ∧
     1 ≤ (gc.reconfigure_surface window_size settings).surface_config.width ∧
     1 ≤ (gc.reconfigure_surface window_size settings).surface_config.height) := by
  refine ⟨⟨rfl, rfl, ?_, ?_⟩, rfl, rfl, ?_, ?_⟩ <;>
    exact le_max_right _ 1

/-- C8: every surface configuration applied by the backend (creation and
reconfigure both go through `configure_surface`) requests `AutoNoVsync`
exactly when a fixed frametime is set and `AutoVsync` exactly when pacing is
vsync (`frametime_or_vsync = none`). -/
theorem surface_present_mode_from_pacing (window_size : Nat × Nat)
    (settings : GraphicsSettings) (gc : GraphicsContext) :
    ((GraphicsContext.new settings window_size).surface_config.present_mode =
        PresentMode.AutoNoVsync ↔ settings.frametime_or_vsync.isSome = true) ∧
    ((GraphicsContext.new settings window_size).surface_config.present_mode =
        PresentMode.AutoVsync ↔ settings.frametime_or_vsync = none) ∧
    ((gc.reconfigure_surface window_size settings).surface_config.present_mode =
        PresentMode.AutoNoVsync ↔ settings.frametime_or_vsync.isSome = true) ∧
    ((gc.reconfigure_surface window_size settings).surface_config.present_mode =
        PresentMode.AutoVsync ↔ settings.frametime_or_vsync = none) := by
  cases h : settings.frametime_or_vsync <;>
    simp [GraphicsContext.new, GraphicsContext.reconfigure_surface,
      configure_surface, h]

/-- C9: a second activation signal while window and backend already exist is a
no-op: `resumed` returns the engine unchanged. -/
theorem resumed_idempotent (e : Engine) (w : Nat × Nat) (gc : GraphicsContext)
    (created_size : Nat × Nat) (hw : e.window = some w)
    (_hgc : e.graphics_context = some gc) :
    e.resumed created_size = e := by
  unfold Engine.resumed
  rw [hw]

/-- Witness for C9 on a ready engine. -/
theorem resumed_idempotent_witness :
    engineUnfocused.resumed (100, 100) = engineUnfocused :=
  resumed_idempotent engineUnfocused (800, 600)
    (GraphicsContext.new GraphicsSettings.default (800, 600)) (100, 100) rfl rfl

/-- When the visibility gate and the pacer gate both pass and window and
context exist, the redraw handler draws: it presents once per loaded pipeline,
records the frame, advances the pacer, and requests another redraw. -/
lemma window_event_redraw_draws (e : Engine) (w : Nat × Nat)
    (gc : GraphicsContext) (now_check now_record now_advance : Nat)
    (hfoc : (e.has_focus || e.graphics_settings.render_without_focus) = true)
    (hw : e.window = some w) (hgc : e.graphics_context = some gc)
    (helig : may_draw e.graphics_settings e.next_frame_time now_check = true) :
    e.window_event (.RedrawRequested now_check now_record now_advance) =
      some ⟨{ e with
                graphics_context := some gc
                performance_stats := e.performance_stats.add_frame now_record
                next_frame_time :=
                  on_drawn e.graphics_settings e.next_frame_time now_advance },
            gc.shaders, 1, false⟩ := by
  simp [Engine.window_event, hfoc, helig, Engine.draw, hgc, GraphicsContext.draw, hw]

/-- When the visibility gate fails, the redraw handler leaves the labelled
block early: no draw, no pacer change, and no `request_redraw`. -/
lemma window_event_redraw_unfocused (e : Engine) (now_check now_record now_advance : Nat)
    (hfoc : (e.has_focus || e.graphics_settings.render_without_focus) = false) :
    e.window_event (.RedrawRequested now_check now_record now_advance) =
      some ⟨e, 0, 0, false⟩ := by
  simp [Engine.window_event, hfoc]

/-- When the visibility gate passes but the pacer gate fails, the redraw
handler skips the draw but still requests another redraw. -/
lemma window_event_redraw_pacer_skip (e : Engine) (w : Nat × Nat)
    (now_check now_record now_advance : Nat)
    (hfoc : (e.has_focus || e.graphics_settings.render_without_focus) = true)
    (hw : e.window = some w)
    (helig : may_draw e.graphics_settings e.next_frame_time now_check = false) :
    e.window_event (.RedrawRequested now_check now_record now_advance) =
      some ⟨e, 0, 1, false⟩ := by
  simp [Engine.window_event, hfoc, helig, hw]

/-- C2 counterexample: on `engineFocused` with focus turned off — the window
exists — a redraw-requested event takes the unfocused-visibility skip and
performs zero `request_redraw` calls: the `break 'block` jumps past the
trailing `request_redraw`, so this cycle does not re-arm the loop. -/
theorem unfocused_skip_no_redraw_request :
    engineUnfocused.window.isSome = true ∧
    (engineUnfocused.window_event (.RedrawRequested 0 0 0)).map
        StepOutput.redraw_requests = some 0 := ⟨rfl, rfl⟩

/-- C2 (amended): a redraw-requested event that ends in a draw or in a
pacer-gated skip requests another redraw before returning; the
unfocused-visibility skip does not (the loop is re-armed by the next
focus-change event instead). -/
theorem redraw_request_after_draw_or_pacer_skip (e : Engine)
    (now_check now_record now_advance : Nat) (out : StepOutput)
    (h : e.window_event (.RedrawRequested now_check now_record now_advance) =
      some out) :
    ((e.has_focus || e.graphics_settings.render_without_focus) = true →
      out.redraw_requests = 1) ∧
    ((e.has_focus || e.graphics_settings.render_without_focus) = false →
      out.redraw_requests = 0) := by
  cases hfoc : (e.has_focus || e.graphics_settings.render_without_focus) with
  | false =>
    refine ⟨fun hc => absurd hc (by simp [hfoc]), fun _ => ?_⟩
    rw [window_event_redraw_unfocused e now_check now_record now_advance hfoc] at h
    injection h with h
    subst h
    rfl
  | true =>
    refine ⟨fun _ => ?_, fun hc => absurd hc (by simp [hfoc])⟩
    cases helig : may_draw e.graphics_settings e.next_frame_time now_check with
    | false =>
      cases hw : e.window with
      | none => simp [Engine.window_event, hfoc, helig, hw] at h
      | some w =>
        rw [window_event_redraw_pacer_skip e w now_check now_record now_advance
          hfoc hw helig] at h
        injection h with h
        subst h
        rfl
    | true =>
      cases hgc : e.graphics_context with
      | none => simp [Engine.window_event, hfoc, helig, Engine.draw, hgc] at h
      | some gc =>
        cases hw : e.window with
        | none =>
          simp [Engine.window_event, hfoc, helig, Engine.draw, hgc, hw] at h
        | some w =>
          rw [window_event_redraw_draws e w gc now_check now_record now_advance
            hfoc hw hgc helig] at h
          injection h with h
          subst h
          rfl

/-- Witness for C2 (amended): a draw cycle on `engineFocused` requests one
redraw. -/
theorem redraw_request_after_draw_or_pacer_skip_witness :
    (engineFocused.has_focus ||
      engineFocused.graphics_settings.render_without_focus) = true ∧
    redrawOut.redraw_requests = 1 :=
  ⟨rfl,
   (redraw_request_after_draw_or_pacer_skip engineFocused 0 0 0 redrawOut rfl).1
     rfl⟩

/-- C4: with `render_without_focus = false` and the focus flag false, a
redraw-requested event performs zero present calls and leaves the engine —
pacer included — untouched; after a focus-changed(true) event, a
redraw-requested event with the pacer eligible and one loaded pipeline
performs exactly one present call. -/
theorem visibility_gating (e : Engine) (w : Nat × Nat) (gc : GraphicsContext)
    (n1 n2 n3 m1 m2 m3 : Nat)
    (hrwf : e.graphics_settings.render_without_focus = false)
    (hfocus : e.has_focus = false)
    (hw : e.window = some w)
    (hgc : e.graphics_context = some gc)
    (hpipes : gc.shaders = 1)
    (helig : may_draw e.graphics_settings e.next_frame_time m1 = true) :
    e.window_event (.RedrawRequested n1 n2 n3) = some ⟨e, 0, 0, false⟩ ∧
    (∃ out2 out3,
      e.window_event (.Focused true) = some out2 ∧
      out2.engine.window_event (.RedrawRequested m1 m2 m3) = some out3 ∧
      out2.presents = 0 ∧ out3.presents = 1) := by
  have hfoc0 : (e.has_focus || e.graphics_settings.render_without_focus) = false := by
    simp [hrwf, hfocus]
  refine ⟨window_event_redraw_unfocused e n1 n2 n3 hfoc0, ?_⟩
  have h2 : e.window_event (.Focused true) =
      some ⟨{ e with has_focus := true }, 0, 1, false⟩ := by
    simp [Engine.window_event, hw]
  have h3 := window_event_redraw_draws { e with has_focus := true } w gc m1 m2 m3
    (by simp) hw hgc helig
  exact ⟨_, _, h2, h3, rfl, by simpa using hpipes⟩

/-- Witness for C4 on `engineUnfocused`. -/
theorem visibility_gating_witness :
    engineUnfocused.window_event (.RedrawRequested 0 0 0) =
      some ⟨engineUnfocused, 0, 0, false⟩ ∧
    (∃ out2 out3,
      engineUnfocused.window_event (.Focused true) = some out2 ∧
      out2.engine.window_event (.RedrawRequested 1 1 1) = some out3 ∧
      out2.presents = 0 ∧ out3.presents = 1) :=
  visibility_gating engineUnfocused (800, 600)
    (GraphicsContext.new GraphicsSettings.default (800, 600)) 0 0 0 1 1 1
    rfl rfl rfl rfl rfl rfl

/-- Per-event facts about the pacer instant `next_frame_time`: it never
decreases (given clock sanity on the redraw path), and it changes only on the
redraw path that passed both gates and actually drew and presented. -/
lemma window_event_pacer (e : Engine) (ev : WindowEvent) (out : StepOutput)
    (h : e.window_event ev = some out) (hclk : ev.clockMonotone) :
    e.next_frame_time ≤ out.engine.next_frame_time ∧
    (out.engine.next_frame_time ≠ e.next_frame_time →
      ∃ now_check now_record now_advance gc,
        ev = .RedrawRequested now_check now_record now_advance ∧
        (e.has_focus || e.graphics_settings.render_without_focus) = true ∧
        may_draw e.graphics_settings e.next_frame_time now_check = true ∧
        e.graphics_context = some gc ∧
        out.presents = gc.shaders) := by
  cases ev with
  | Focused b =>
    cases hw : e.window with
    | none => simp [Engine.window_event, hw] at h
    | some wv =>
      simp only [Engine.window_event, hw, Option.some.injEq] at h
      subst h
      exact ⟨le_rfl, fun hne => absurd rfl hne⟩
  | CloseRequested =>
    simp only [Engine.window_event, Option.some.injEq] at h
    subst h
    exact ⟨le_rfl, fun hne => absurd rfl hne⟩
  | Other =>
    simp only [Engine.window_event, Option.some.injEq] at h
    subst h
    exact ⟨le_rfl, fun hne => absurd rfl hne⟩
  | Resized sz =>
    cases hgc : e.graphics_context with
    | none =>
      simp only [Engine.window_event, hgc, Option.some.injEq] at h
      subst h
      exact ⟨le_rfl, fun hne => absurd rfl hne⟩
    | some gc =>
      cases hw : e.window with
      | none => simp [Engine.window_event, hgc, hw] at h
      | some wv =>
        simp only [Engine.window_event, hgc, hw, Option.map_some', Option.some.injEq] at h
        subst h
        exact ⟨le_rfl, fun hne => absurd rfl hne⟩
  | RedrawRequested n1 n2 n3 =>
    have hclk' : n1 ≤ n3 := hclk
    cases hfoc : (e.has_focus || e.graphics_settings.render_without_focus) with
    | false =>
      rw [window_event_redraw_unfocused e n1 n2 n3 hfoc] at h
      injection h with h
      subst h
      exact ⟨le_rfl, fun hne => absurd rfl hne⟩
    | true =>
      cases helig : may_draw e.graphics_settings e.next_frame_time n1 with
      | false =>
        cases hw : e.window with
        | none => simp [Engine.window_event, hfoc, helig, hw] at h
        | some wv =>
          rw [window_event_redraw_pacer_skip e wv n1 n2 n3 hfoc hw helig] at h
          injection h with h
          subst h
          exact ⟨le_rfl, fun hne => absurd rfl hne⟩
      | true =>
        cases hgc : e.graphics_context with
        | none => simp [Engine.window_event, hfoc, helig, Engine.draw, hgc] at h
        | some gc =>
          cases hw : e.window with
          | none =>
            simp [Engine.window_event, hfoc, helig, Engine.draw, hgc, hw] at h
          | some wv =>
            rw [window_event_redraw_draws e wv gc n1 n2 n3 hfoc hw hgc helig] at h
            injection h with h
            subst h
            refine ⟨?_, fun _ => ⟨n1, n2, n3, gc, rfl, rfl, helig, rfl, rfl⟩⟩
            show e.next_frame_time ≤ on_drawn e.graphics_settings e.next_frame_time n3
            cases hft : e.graphics_settings.frametime_or_vsync with
            | none => simp [on_drawn, hft]
            | some d =>
              have hle : e.next_frame_time ≤ n1 := by
                simpa [may_draw, hft] using helig
              simp only [on_drawn, hft]
              omega

/-- The pacer instant never decreases across a whole run of events. -/
lemma run_pacer_monotone (evs : List WindowEvent) :
    ∀ (e e' : Engine), e.run evs = some e' →
      (∀ ev ∈ evs, ev.clockMonotone) →
      e.next_frame_time ≤ e'.next_frame_time := by
  induction evs with
  | nil =>
    intro e e' h _
    simp only [Engine.run, Option.some.injEq] at h
    subst h
    exact le_rfl
  | cons ev evs ih =>
    intro e e' h hclk
    unfold Engine.run at h
    cases hev : e.window_event ev with
    | none => rw [hev] at h; cases h
    | some out =>
      rw [hev] at h
      have h1 := (window_event_pacer e ev out hev (hclk ev (by simp))).1
      have h2 := ih out.engine e' h (fun x hx => hclk x (by simp [hx]))
      omega

/-- C6: across any event-processing run (with sane clocks), the pacer instant
`next_frame_time` is monotonically non-decreasing; and whenever one event
changes it, that event was a redraw that passed the visibility and pacer gates
and drew — presenting once per loaded pipeline — never an unfocused skip or a
pacer-gated skip. -/
theorem pacer_monotone_mutated_only_on_draw :
    (∀ (e e' : Engine) (evs : List WindowEvent), e.run evs = some e' →
      (∀ ev ∈ evs, ev.clockMonotone) →
      e.next_frame_time ≤ e'.next_frame_time) ∧
    (∀ (e : Engine) (ev : WindowEvent) (out : StepOutput),
      e.window_event ev = some out → ev.clockMonotone →
      out.engine.next_frame_time ≠ e.next_frame_time →
      ∃ now_check now_record now_advance gc,
        ev = .RedrawRequested now_check now_record now_advance ∧
        (e.has_focus || e.graphics_settings.render_without_focus) = true ∧
        may_draw e.graphics_settings e.next_frame_time now_check = true ∧
        e.graphics_context = some gc ∧
        out.presents = gc.shaders) :=
  ⟨fun e e' evs h hclk => run_pacer_monotone evs e e' h hclk,
   fun e ev out h hclk => (window_event_pacer e ev out h hclk).2⟩

/-- Witness for C6: a two-event run on the focused engine (one draw, then a
close request). -/
theorem pacer_monotone_mutated_only_on_draw_witness :
    engineFocused.next_frame_time ≤ redrawOut.engine.next_frame_time :=
  pacer_monotone_mutated_only_on_draw.1 engineFocused redrawOut.engine
    [.RedrawRequested 0 0 0, .CloseRequested] rfl
    (by intro ev hev
        rcases List.mem_cons.mp hev with rfl | hev2
        · exact Nat.le_refl 0
        · rcases List.mem_cons.mp hev2 with rfl | hev3
          · trivial
          · cases hev3)

/-- C10: before the first activation (window and backend absent), a
focus-changed event panics on the window unwrap, and a redraw-requested event
that passes the visibility gate panics (on the context unwrap if the pacer
allows drawing, otherwise on the trailing window unwrap); a resize, by
contrast, is an explicit no-op. -/
theorem uninitialized_window_event_panics (e : Engine) (b : Bool)
    (n1 n2 n3 : Nat) (size : Nat × Nat)
    (hw : e.window = none) (hgc : e.graphics_context = none) :
    e.window_event (.Focused b) = none ∧
    ((e.has_focus || e.graphics_settings.render_without_focus) = true →
      e.window_event (.RedrawRequested n1 n2 n3) = none) ∧
    e.window_event (.Resized size) = some ⟨e, 0, 0, false⟩ := by
  obtain ⟨win, foc, gcx, gs, nft, ps⟩ := e
  obtain rfl : win = none := hw
  obtain rfl : gcx = none := hgc
  refine ⟨rfl, fun hfoc => ?_, rfl⟩
  cases helig : may_draw gs nft n1 with
  | true => simp [Engine.window_event, hfoc, helig, Engine.draw]
  | false => simp [Engine.window_event, hfoc, helig]

/-- Witness for C10 on `engineFresh`. -/
theorem uninitialized_window_event_panics_witness :
    engineFresh.window_event (.Focused true) = none ∧
    engineFresh.window_event (.RedrawRequested 0 0 0) = none ∧
    engineFresh.window_event (.Resized (5, 5)) = some ⟨engineFresh, 0, 0, false⟩ := by
  have h := uninitialized_window_event_panics engineFresh true 0 0 0 (5, 5) rfl rfl
  exact ⟨h.1, h.2.1 rfl, h.2.2⟩
